import Mathlib

/-!
Verification development for the landing-page behavior layer
(repository with two parallel implementations: a controller class in
`unnamed/part_000`, here suffixed `_ctrl`, and a flat set of global
functions in `script.js`, here suffixed `_flat`).

Each subsystem is shallowly embedded: DOM state becomes explicit record
state, event handlers become state-transition functions, JS numbers (where
division by zero matters) become an explicit extended-number type, and
code that can throw returns an explicit exception channel.
-/

/-! ## JS number model (for the reading-progress computation)

`updateProgressBar` divides by `scrollHeight - innerHeight`, which in JS
is ordinary IEEE division: `x / 0` is `Infinity` for `x > 0`, `-Infinity`
for `x < 0`, and `NaN` for `x = 0`.  We model the JS doubles reachable
here as exact rationals extended with the three special values. -/

inductive JsNum where
  | fin : ℚ → JsNum
  | posInf : JsNum
  | negInf : JsNum
  | nan : JsNum
deriving DecidableEq, Repr

/-- JS division `a / b` on the modelled values. -/
def jsDiv : JsNum → JsNum → JsNum
  | JsNum.fin a, JsNum.fin b =>
      if b = 0 then
        if a = 0 then JsNum.nan
        else if a > 0 then JsNum.posInf
        else JsNum.negInf
      else JsNum.fin (a / b)
  | _, _ => JsNum.nan

/-- JS multiplication, on the cases reachable from `updateProgressBar`. -/
def jsMul : JsNum → JsNum → JsNum
  | JsNum.fin a, JsNum.fin b => JsNum.fin (a * b)
  | JsNum.posInf, JsNum.fin b =>
      if b = 0 then JsNum.nan else if b > 0 then JsNum.posInf else JsNum.negInf
  | JsNum.negInf, JsNum.fin b =>
      if b = 0 then JsNum.nan else if b > 0 then JsNum.negInf else JsNum.posInf
  | JsNum.fin a, JsNum.posInf =>
      if a = 0 then JsNum.nan else if a > 0 then JsNum.posInf else JsNum.negInf
  | JsNum.fin a, JsNum.negInf =>
      if a = 0 then JsNum.nan else if a > 0 then JsNum.negInf else JsNum.posInf
  | JsNum.posInf, JsNum.posInf => JsNum.posInf
  | JsNum.posInf, JsNum.negInf => JsNum.negInf
  | JsNum.negInf, JsNum.posInf => JsNum.negInf
  | JsNum.negInf, JsNum.negInf => JsNum.posInf
  | _, _ => JsNum.nan

/-- JS `Math.min`: returns `NaN` if either argument is `NaN`. -/
def jsMin : JsNum → JsNum → JsNum
  | JsNum.nan, _ => JsNum.nan
  | _, JsNum.nan => JsNum.nan
  | JsNum.negInf, _ => JsNum.negInf
  | _, JsNum.negInf => JsNum.negInf
  | JsNum.posInf, y => y
  | x, JsNum.posInf => x
  | JsNum.fin a, JsNum.fin b => JsNum.fin (min a b)

/-! ## Scroll reactor (`updateProgressBar`, `updateScrollButton`,
`scrollToTop` of `unnamed/part_000`; the flat scroll handler of
`script.js` is the same comparison). -/

/-- `const scrolled = (window.pageYOffset /
(document.documentElement.scrollHeight - window.innerHeight)) * 100;`
with scroll offset `s`, document scroll height `H`, viewport height `V`. -/
def progressScrolled (s H V : ℚ) : JsNum :=
  jsMul (jsDiv (JsNum.fin s) (JsNum.fin (H - V))) (JsNum.fin 100)

/-- `progressBar.style.width = Math.min(scrolled, 100) + percent` —
the numeric value the handler writes as the indicator width. -/
def progressWidth (s H V : ℚ) : JsNum :=
  jsMin (progressScrolled s H V) (JsNum.fin 100)

/-- The spec's formula: `clamp(s/(H-V)*100, 0, 100)` for `H > V`,
and `0` when `H = V`.  (Stated from the spec, for comparison with
`progressWidth`, which is stated from the code.) -/
def specProgressWidth (s H V : ℚ) : ℚ :=
  if H = V then 0 else max 0 (min (s / (H - V) * 100) 100)

/-- State of the scroll-to-top control. -/
structure ScrollDom where
  buttonPresent : Bool
  buttonDisplay : String
deriving DecidableEq, Repr

/-- `updateScrollButton()`: if the control exists, set its display to
`block` when `window.pageYOffset > 300`, else `none`. -/
def updateScrollButton (s : ℚ) (d : ScrollDom) : ScrollDom :=
  if d.buttonPresent then
    { d with buttonDisplay := if s > 300 then "block" else "none" }
  else d

/-- `scrollToTop()`: `window.scrollTo(top: 0)` — the resulting offset. -/
def scrollToTop (s : ℚ) : ℚ := 0

/-- C1 — the claim says the width is 0 when `H = V` and that no division
by zero occurs; the code divides `s` by `H - V = 0`, giving `Infinity`,
and `Math.min(Infinity, 100) = 100`: at `s = 100`, `H = V = 800` the
handler writes width 100, not 0. -/
theorem progressWidth_div_by_zero_bug :
    progressWidth 100 800 800 = JsNum.fin 100 ∧
    specProgressWidth 100 800 800 = 0 ∧
    progressWidth 100 800 800 ≠ JsNum.fin (specProgressWidth 100 800 800) := by
  refine ⟨?_, ?_, ?_⟩ <;> norm_num [progressWidth, progressScrolled,
    specProgressWidth, jsDiv, jsMul, jsMin]

/-- C8 — after the scroll handler runs at offset `s`, the scroll-to-top
control is displayed iff `s > 300`, and clicking it scrolls to offset 0. -/
theorem updateScrollButton_visible_iff (s : ℚ) (d : ScrollDom)
    (hs : 0 ≤ s) (hd : d.buttonPresent = true) :
    ((updateScrollButton s d).buttonDisplay = "block" ↔ s > 300) ∧
    ((updateScrollButton s d).buttonDisplay = "none" ↔ ¬ s > 300) ∧
    scrollToTop s = 0 := by
  unfold updateScrollButton scrollToTop
  rw [hd]
  by_cases h : s > 300 <;> simp [h]

/-- Witness for C8 at `s = 400` on a concrete DOM. -/
theorem updateScrollButton_visible_iff_witness :
    (updateScrollButton 400 ⟨true, "none"⟩).buttonDisplay = "block" := by
  have h := updateScrollButton_visible_iff 400 ⟨true, "none"⟩ (by norm_num) rfl
  exact h.1.mpr (by norm_num)

/-! ## Intersection observers (reveal animation and lazy images)

The browser delivers intersection entries only for elements currently
observed, so delivery is modelled per element as: if observed, run the
callback body on the entry, else the entry never arrives (state
unchanged).  Four watcher callbacks exist in the repository. -/

/-- Per-element state for a reveal-animated element. -/
structure RevealElem where
  observed : Bool
  opacity : String
  transform : String
deriving DecidableEq, Repr

/-- Per-element state for a lazily loaded image. -/
structure LazyImg where
  observed : Bool
  src : Option String
  dataSrc : String
  classLazy : Bool
  classLoaded : Bool
deriving DecidableEq, Repr

/-- Controller reveal watcher (`setupIntersectionObserver`): on an
intersecting entry, `animateElement` (opacity 1, translateY(0)) then
`this.observer.unobserve(entry.target)`. -/
def ctrlRevealDeliver (isIntersecting : Bool) (e : RevealElem) : RevealElem :=
  if e.observed then
    if isIntersecting then
      { observed := false, opacity := "1", transform := "translateY(0)" }
    else e
  else e

/-- Flat reveal watcher (`script.js` `observer`): on an intersecting
entry, sets opacity 1 and translateY(0) but never unobserves. -/
def flatRevealDeliver (isIntersecting : Bool) (e : RevealElem) : RevealElem :=
  if e.observed then
    if isIntersecting then
      { e with opacity := "1", transform := "translateY(0)" }
    else e
  else e

/-- Controller lazy-image watcher (`setupLazyLoading` / `loadImage`):
copies `data-src` to `src`, drops class `lazy`, adds class `loaded`,
then `imageObserver.unobserve(entry.target)`. -/
def ctrlImageDeliver (isIntersecting : Bool) (i : LazyImg) : LazyImg :=
  if i.observed then
    if isIntersecting then
      { observed := false, src := some i.dataSrc, dataSrc := i.dataSrc,
        classLazy := false, classLoaded := true }
    else i
  else i

/-- Flat lazy-image watcher (`script.js` `imageObserver`): copies
`data-src` to `src`, drops class `lazy`, then unobserves (no `loaded`
class is added in this variant). -/
def flatImageDeliver (isIntersecting : Bool) (i : LazyImg) : LazyImg :=
  if i.observed then
    if isIntersecting then
      { observed := false, src := some i.dataSrc, dataSrc := i.dataSrc,
        classLazy := false, classLoaded := i.classLoaded }
    else i
  else i

/-- C2 counterexample — the claim says every reveal or lazy-image watcher
unobserves after the first intersecting callback, but the flat reveal
watcher (`script.js` lines 41–48) never calls `unobserve`: after an
intersecting delivery the element is still observed. -/
theorem flatRevealDeliver_still_observed :
    (flatRevealDeliver true ⟨true, "0", "translateY(30px)"⟩).observed = true := by
  decide

/-- C2 (amended) — the controller reveal watcher and both lazy-image
watchers unobserve on the first intersecting callback, after which any
further delivery is a no-op; the flat reveal watcher keeps observing,
but its effect is idempotent, so a second intersecting callback changes
nothing. -/
theorem observers_at_most_once (b : Bool) (e f : RevealElem) (i j : LazyImg)
    (he : e.observed = true) (hf : f.observed = true)
    (hi : i.observed = true) (hj : j.observed = true) :
    (ctrlRevealDeliver true e).observed = false ∧
    ctrlRevealDeliver b (ctrlRevealDeliver true e) = ctrlRevealDeliver true e ∧
    (ctrlImageDeliver true i).observed = false ∧
    ctrlImageDeliver b (ctrlImageDeliver true i) = ctrlImageDeliver true i ∧
    (flatImageDeliver true j).observed = false ∧
    flatImageDeliver b (flatImageDeliver true j) = flatImageDeliver true j ∧
    flatRevealDeliver true (flatRevealDeliver true f) = flatRevealDeliver true f := by
  refine ⟨?_, ?_, ?_, ?_, ?_, ?_, ?_⟩ <;>
    simp [ctrlRevealDeliver, ctrlImageDeliver, flatImageDeliver,
      flatRevealDeliver, he, hf, hi, hj]

/-- Witness for C2 (amended) on concrete observed elements. -/
theorem observers_at_most_once_witness :
    (ctrlRevealDeliver true ⟨true, "0", "translateY(30px)"⟩).observed = false ∧
    (ctrlImageDeliver true ⟨true, none, "a.png", true, false⟩).observed = false := by
  have h := observers_at_most_once true ⟨true, "0", "translateY(30px)"⟩
    ⟨true, "0", "translateY(30px)"⟩ ⟨true, none, "a.png", true, false⟩
    ⟨true, none, "a.png", true, false⟩ rfl rfl rfl rfl
  exact ⟨h.1, h.2.2.1⟩

/-! ## Video modal controller

DOM state for the modal container, the media element, and the page body.
The controller variant guards on both elements existing; the flat
variant dereferences them unconditionally, so a missing element makes
the call throw a `TypeError` (modelled as an exception flag, paired with
the state as mutated up to the throwing statement). -/

structure VideoDom where
  modalPresent : Bool
  videoPresent : Bool
  modalDisplay : String
  playing : Bool
  currentTime : ℚ
  bodyOverflow : String
deriving DecidableEq, Repr

/-- Controller `playVideo()`: `if (modal && video)` show the container,
start playback, suppress page scroll; otherwise do nothing. -/
def ctrlPlayVideo (d : VideoDom) : VideoDom :=
  if d.modalPresent && d.videoPresent then
    { d with modalDisplay := "block", playing := true, bodyOverflow := "hidden" }
  else d

/-- Controller `closeVideo()`: `if (modal && video)` hide the container,
pause, reset `currentTime` to 0, restore page scroll; otherwise nothing. -/
def ctrlCloseVideo (d : VideoDom) : VideoDom :=
  if d.modalPresent && d.videoPresent then
    { d with modalDisplay := "none", playing := false, currentTime := 0,
             bodyOverflow := "" }
  else d

/-- Flat `playVideo()` (`script.js`): no guard — `modal.style.display`
throws if the modal is absent, `video.play()` throws if the video is
absent (after the display mutation already happened). -/
def flatPlayVideo (d : VideoDom) : VideoDom × Option String :=
  if !d.modalPresent then (d, some "TypeError")
  else
    if !d.videoPresent then ({ d with modalDisplay := "block" }, some "TypeError")
    else ({ d with modalDisplay := "block", playing := true }, none)

/-- Flat `closeVideo()` (`script.js`): no guard, same throwing shape. -/
def flatCloseVideo (d : VideoDom) : VideoDom × Option String :=
  if !d.modalPresent then (d, some "TypeError")
  else
    if !d.videoPresent then ({ d with modalDisplay := "none" }, some "TypeError")
    else ({ d with modalDisplay := "none", playing := false, currentTime := 0 }, none)

/-- C3 counterexample — the claim says every open call with the modal
element absent is a silent no-op, but the flat `playVideo` dereferences
the missing element and throws (likewise `closeVideo`). -/
theorem flatPlayVideo_throws_when_absent :
    (flatPlayVideo ⟨false, true, "", false, 0, ""⟩).2 = some "TypeError" ∧
    (flatCloseVideo ⟨false, true, "", false, 0, ""⟩).2 = some "TypeError" := by
  decide

/-- C3 (amended) — the controller variant's open and close are silent
no-ops whenever the modal container or the media element is absent:
they complete without throwing (they are total functions) and mutate
nothing. -/
theorem ctrlVideo_noop_when_absent (d : VideoDom)
    (h : d.modalPresent = false ∨ d.videoPresent = false) :
    ctrlPlayVideo d = d ∧ ctrlCloseVideo d = d := by
  rcases h with h | h <;> simp [ctrlPlayVideo, ctrlCloseVideo, h]

/-- Witness for C3 (amended) on a concrete DOM lacking the modal. -/
theorem ctrlVideo_noop_when_absent_witness :
    ctrlPlayVideo ⟨false, true, "", false, 0, ""⟩ = ⟨false, true, "", false, 0, ""⟩ :=
  (ctrlVideo_noop_when_absent ⟨false, true, "", false, 0, ""⟩ (Or.inl rfl)).1

/-- C7 — `open()` is idempotent (a second `open()` from any state, in
particular from CLOSED, leaves the same DOM state as one `open()`, with
the modal shown), and `close()` from CLOSED (container hidden, scroll
restored) leaves CLOSED and performs only the media reset: pause and
playback position 0. -/
theorem videoModal_idempotent (d : VideoDom)
    (hm : d.modalPresent = true) (hv : d.videoPresent = true)
    (hc : d.modalDisplay = "none") (ho : d.bodyOverflow = "") :
    ctrlPlayVideo (ctrlPlayVideo d) = ctrlPlayVideo d ∧
    (ctrlPlayVideo d).modalDisplay = "block" ∧
    ctrlCloseVideo d = { d with playing := false, currentTime := 0 } ∧
    (ctrlCloseVideo d).modalDisplay = "none" := by
  refine ⟨?_, ?_, ?_, ?_⟩ <;>
    simp [ctrlPlayVideo, ctrlCloseVideo, hm, hv, hc, ho]

/-- Witness for C7 at a concrete CLOSED state with media mid-playback. -/
theorem videoModal_idempotent_witness :
    ctrlCloseVideo ⟨true, true, "none", true, 7, ""⟩ =
      ⟨true, true, "none", false, 0, ""⟩ :=
  (videoModal_idempotent ⟨true, true, "none", true, 7, ""⟩ rfl rfl rfl rfl).2.2.1

/-! ## Sharing service (`shareGift`)

`encodeURIComponent` is modelled by its standard definition: unreserved
characters (ASCII letters, digits, `- _ . ! ~ * ' ( )`) pass through,
every other code point is written as the percent-escapes of its UTF-8
bytes. -/

/-- Upper-case hex digit of `n < 16`. -/
def hexDigit (n : Nat) : Char :=
  if n < 10 then Char.ofNat (48 + n) else Char.ofNat (55 + n)

/-- `%XY` escape of one byte. -/
def percentByte (b : Nat) : List Char :=
  [Char.ofNat 37, hexDigit (b / 16), hexDigit (b % 16)]

/-- UTF-8 bytes of one code point. -/
def utf8Bytes (c : Char) : List Nat :=
  let n := c.toNat
  if n < 128 then [n]
  else if n < 2048 then [192 + n / 64, 128 + n % 64]
  else if n < 65536 then [224 + n / 4096, 128 + n / 64 % 64, 128 + n % 64]
  else [240 + n / 262144, 128 + n / 4096 % 64, 128 + n / 64 % 64, 128 + n % 64]

/-- Characters `encodeURIComponent` leaves unescaped. -/
def uriUnreserved (c : Char) : Bool :=
  let n := c.toNat
  (65 ≤ n && n ≤ 90) || (97 ≤ n && n ≤ 122) || (48 ≤ n && n ≤ 57) ||
  n == 45 || n == 95 || n == 46 || n == 33 || n == 126 || n == 42 ||
  n == 39 || n == 40 || n == 41

def encodeURIComponent (s : String) : String :=
  String.mk ((s.data.map (fun c =>
    if uriUnreserved c then [c] else ((utf8Bytes c).map percentByte).flatten)).flatten)

/-- Naive list-segment search: does `sub` occur starting at the head? -/
def leadMatch : List Char → List Char → Bool
  | [], _ => true
  | _ :: _, [] => false
  | a :: as, b :: bs => a == b && leadMatch as bs

/-- Does `sub` occur anywhere in the list? -/
def hasSeg (sub : List Char) : List Char → Bool
  | [] => sub.isEmpty
  | b :: bs => leadMatch sub (b :: bs) || hasSeg sub bs

/-- `sub` occurs as a contiguous substring of `s`. -/
def strContains (s sub : String) : Bool := hasSeg sub.data s.data

/-- One `window.open` call: url, target, feature string. -/
structure WindowOpen where
  url : String
  target : String
  features : String
deriving DecidableEq, Repr

def giftUrl : String := "https://www.patreon.com/MesmerizingIndianAILookbook/gift"

/-- Promotional text of the controller variant (`unnamed/part_000` holds
the mojibake byte sequence `U+00F0 U+0178 U+017D U+00A8` where the flat
file has the single palette emoji). -/
def giftText_ctrl : String :=
  "ðŸŽ¨ Why not gift the world of beautiful AI art? Give someone a special experience!"

/-- Promotional text of the flat variant (`script.js`). -/
def giftText_flat : String :=
  "🎨 Why not gift the world of beautiful AI art? Give someone a special experience!"

def shareTwitterUrl (text : String) : String :=
  "https://twitter.com/intent/tweet?text=" ++ encodeURIComponent text ++
    "&url=" ++ encodeURIComponent giftUrl

def shareFacebookUrl : String :=
  "https://www.facebook.com/sharer/sharer.php?u=" ++ encodeURIComponent giftUrl

def shareLineUrl (text : String) : String :=
  "https://social-plugins.line.me/lineit/share?url=" ++ encodeURIComponent giftUrl ++
    "&text=" ++ encodeURIComponent text

/-- The members every JS object literal inherits from
`Object.prototype`, paired with their string coercion (what a DOM API
receives when handed the member): `shareUrls[platform]` finds these by
prototype-chain lookup even though they are not own keys, and every one
of them is truthy (eleven methods and the `__proto__` accessor's
object). -/
def objectPrototypeMembers : List (String × String) :=
  [("constructor", "function Object() \x7b [native code] \x7d"),
   ("hasOwnProperty", "function hasOwnProperty() \x7b [native code] \x7d"),
   ("isPrototypeOf", "function isPrototypeOf() \x7b [native code] \x7d"),
   ("propertyIsEnumerable", "function propertyIsEnumerable() \x7b [native code] \x7d"),
   ("toLocaleString", "function toLocaleString() \x7b [native code] \x7d"),
   ("toString", "function toString() \x7b [native code] \x7d"),
   ("valueOf", "function valueOf() \x7b [native code] \x7d"),
   ("__defineGetter__", "function __defineGetter__() \x7b [native code] \x7d"),
   ("__defineSetter__", "function __defineSetter__() \x7b [native code] \x7d"),
   ("__lookupGetter__", "function __lookupGetter__() \x7b [native code] \x7d"),
   ("__lookupSetter__", "function __lookupSetter__() \x7b [native code] \x7d"),
   ("__proto__", "[object Object]")]

/-- Controller `shareGift(platform)`: `shareUrls[platform]` is a JS
property read on an object literal with own keys twitter, facebook,
line — a miss continues up the prototype chain to `Object.prototype`,
whose members are all truthy, so `if (shareUrls[platform])` also passes
for their names and `window.open` receives the member coerced to a
string. -/
def shareGift_ctrl (platform : String) : Option WindowOpen :=
  (if platform = "twitter" then some (shareTwitterUrl giftText_ctrl)
   else if platform = "facebook" then some shareFacebookUrl
   else if platform = "line" then some (shareLineUrl giftText_ctrl)
   else objectPrototypeMembers.lookup platform).map
    (fun u => ⟨u, "_blank", "width=600,height=400,noopener,noreferrer"⟩)

/-- Flat `shareGift(platform)`: a `switch` leaves `shareUrl` empty for
unknown platforms, and `window.open` runs only when it is non-empty. -/
def shareGift_flat (platform : String) : Option WindowOpen :=
  if platform = "twitter" then
    some ⟨shareTwitterUrl giftText_flat, "_blank", "width=600,height=400"⟩
  else if platform = "facebook" then
    some ⟨shareFacebookUrl, "_blank", "width=600,height=400"⟩
  else if platform = "line" then
    some ⟨shareLineUrl giftText_flat, "_blank", "width=600,height=400"⟩
  else none

set_option maxRecDepth 40000

/-- C5 counterexample — the claim says any platform outside
twitter/facebook/line opens no window at all, but in the controller
variant `shareUrls["toString"]` finds the truthy inherited
`Object.prototype.toString`, so `shareGift('toString')` — reachable
through an arbitrary `data-platform` attribute — does open a window. -/
theorem shareGift_ctrl_opens_on_toString :
    "toString" ≠ "twitter" ∧ "toString" ≠ "facebook" ∧ "toString" ≠ "line" ∧
    (shareGift_ctrl "toString").isSome = true := by
  decide

/-- C5 (amended) — `shareGift('twitter')` opens exactly one popup whose
URL contains the percent-encoded promotional text and the
percent-encoded gift URL, with features fixing dimensions 600×400, in
both variants; the flat variant opens no window for any platform
outside twitter/facebook/line, and the controller variant opens none
for platforms that are additionally not names of inherited
`Object.prototype` members (for such a name the object lookup is truthy
and a window is opened on the member's string coercion). -/
theorem shareGift_platform_spec (p : String)
    (h1 : p ≠ "twitter") (h2 : p ≠ "facebook") (h3 : p ≠ "line")
    (h4 : objectPrototypeMembers.lookup p = none) :
    (∃ w, shareGift_ctrl "twitter" = some w ∧
      strContains w.url (encodeURIComponent giftText_ctrl) = true ∧
      strContains w.url (encodeURIComponent giftUrl) = true ∧
      strContains w.features "width=600,height=400" = true) ∧
    (∃ w, shareGift_flat "twitter" = some w ∧
      strContains w.url (encodeURIComponent giftText_flat) = true ∧
      strContains w.url (encodeURIComponent giftUrl) = true ∧
      w.features = "width=600,height=400") ∧
    shareGift_ctrl p = none ∧
    (∀ q, q ≠ "twitter" → q ≠ "facebook" → q ≠ "line" →
      shareGift_flat q = none) := by
  refine ⟨⟨_, rfl, by decide, by decide, by decide⟩,
          ⟨_, rfl, by decide, by decide, rfl⟩, ?_, ?_⟩
  · simp [shareGift_ctrl, h1, h2, h3, h4]
  · intro q hq1 hq2 hq3
    simp [shareGift_flat, hq1, hq2, hq3]

/-- Witness for C5 (amended) at the unknown platform `"unknown"`. -/
theorem shareGift_platform_spec_witness :
    shareGift_ctrl "unknown" = none ∧ shareGift_flat "unknown" = none := by
  have h := shareGift_platform_spec "unknown"
    (by decide) (by decide) (by decide) (by decide)
  exact ⟨h.2.2.1, h.2.2.2 "unknown" (by decide) (by decide) (by decide)⟩

/-! ## Clipboard service (`copyGiftLink`)

Environment booleans model the three external capabilities: whether
`navigator.clipboard` exists, whether its `writeText` resolves, and
whether `document.execCommand('copy')` succeeds.  The DOM state counts
textarea appends/removals and records the toasts shown. -/

structure CopyEnv where
  clipAvail : Bool
  writeOk : Bool
  execOk : Bool
deriving DecidableEq, Repr

structure CopyDom where
  textareaAttached : Bool
  appendCount : Nat
  removeCount : Nat
  toasts : List String
deriving DecidableEq, Repr

/-- Controller `fallbackCopyText`: appends the hidden textarea, selects,
tries `execCommand('copy')`; failure is rethrown as
`Error('Fallback copy failed')` while the `finally` removes the textarea
on both paths.  Result: DOM after, and whether it raised to the caller. -/
def fallbackCopyText_ctrl (env : CopyEnv) (d : CopyDom) : CopyDom × Bool :=
  let d1 := { d with textareaAttached := true, appendCount := d.appendCount + 1 }
  let d2 := { d1 with textareaAttached := false, removeCount := d1.removeCount + 1 }
  (d2, !env.execOk)

/-- The `try` block of the controller `copyGiftLink`: if the clipboard
capability exists, `await writeText` (a rejection raises); otherwise the
fallback path; then the success toast.  `some` marks a raise. -/
def copyGiftLinkBody_ctrl (env : CopyEnv) (d : CopyDom) : CopyDom × Option Unit :=
  if env.clipAvail then
    if env.writeOk then ({ d with toasts := d.toasts ++ ["success"] }, none)
    else (d, some ())
  else
    let r := fallbackCopyText_ctrl env d
    if r.2 then (r.1, some ())
    else ({ r.1 with toasts := r.1.toasts ++ ["success"] }, none)

/-- Controller `copyGiftLink`: the surrounding catch converts any raise
into an error toast; the total result type shows no error escapes. -/
def copyGiftLink_ctrl (env : CopyEnv) (d : CopyDom) : CopyDom :=
  match copyGiftLinkBody_ctrl env d with
  | (d1, none) => d1
  | (d1, some _) => { d1 with toasts := d1.toasts ++ ["error"] }

/-- Flat `fallbackCopyTextToClipboard`: appends, selects, tries
`execCommand`; success shows the success toast, failure is only logged;
the textarea is removed afterwards on both paths. -/
def fallbackCopy_flat (env : CopyEnv) (d : CopyDom) : CopyDom :=
  let d1 := { d with textareaAttached := true, appendCount := d.appendCount + 1 }
  let d2 := if env.execOk then { d1 with toasts := d1.toasts ++ ["success"] } else d1
  { d2 with textareaAttached := false, removeCount := d2.removeCount + 1 }

/-- Flat `copyGiftLink`: `writeText().then(success toast).catch(run the
fallback)`; with no clipboard capability the fallback runs directly. -/
def copyGiftLink_flat (env : CopyEnv) (d : CopyDom) : CopyDom :=
  if env.clipAvail then
    if env.writeOk then { d with toasts := d.toasts ++ ["success"] }
    else fallbackCopy_flat env d
  else fallbackCopy_flat env d

/-- C4 counterexample — the claim says a failed clipboard write runs the
fallback path, but the controller `copyGiftLink` only falls back when
the capability is absent: with the capability present and the write
rejecting, no textarea is ever appended and an error toast is shown. -/
theorem copyGiftLink_ctrl_no_fallback_on_write_failure :
    (copyGiftLink_ctrl ⟨true, false, true⟩ ⟨false, 0, 0, []⟩).appendCount = 0 ∧
    (copyGiftLink_ctrl ⟨true, false, true⟩ ⟨false, 0, 0, []⟩).toasts = ["error"] := by
  decide

/-- C4 (amended) — both variants attempt the clipboard capability first
and let no error escape (both are total); the flat variant runs the
fallback whenever the capability is unavailable or its write fails,
while the controller variant runs it only when the capability is
unavailable (a failed write yields the error toast directly); in every
fallback run the temporary textarea is appended and then removed again
regardless of whether the copy succeeds. -/
theorem copyGiftLink_fallback_scoped (env : CopyEnv) (d : CopyDom)
    (h : d.textareaAttached = false) :
    (copyGiftLink_ctrl env d).textareaAttached = false ∧
    (copyGiftLink_flat env d).textareaAttached = false ∧
    (env.clipAvail = false →
      (copyGiftLink_ctrl env d).appendCount = d.appendCount + 1 ∧
      (copyGiftLink_ctrl env d).removeCount = d.removeCount + 1) ∧
    (env.clipAvail = false ∨ env.writeOk = false →
      (copyGiftLink_flat env d).appendCount = d.appendCount + 1 ∧
      (copyGiftLink_flat env d).removeCount = d.removeCount + 1) ∧
    (env.clipAvail = true → env.writeOk = false →
      (copyGiftLink_ctrl env d).appendCount = d.appendCount ∧
      (copyGiftLink_ctrl env d).toasts = d.toasts ++ ["error"]) := by
  obtain ⟨ca, wo, eo⟩ := env
  cases ca <;> cases wo <;> cases eo <;>
    simp_all [copyGiftLink_ctrl, copyGiftLinkBody_ctrl, fallbackCopyText_ctrl,
      copyGiftLink_flat, fallbackCopy_flat]

/-- Witness for C4 (amended): no clipboard capability, fallback succeeds. -/
theorem copyGiftLink_fallback_scoped_witness :
    (copyGiftLink_ctrl ⟨false, false, true⟩ ⟨false, 0, 0, []⟩).appendCount = 0 + 1 := by
  have h := copyGiftLink_fallback_scoped ⟨false, false, true⟩ ⟨false, 0, 0, []⟩ rfl
  exact (h.2.2.1 rfl).1

/-! ## Notification presenter (`showNotification` of the controller
variant)

Deterministic-timer model: pending timers carry their absolute firing
time; `toastStep` fires the earliest pending timer (here there is at
most one pending at any moment).  `removeChild` throws when the node has
no parent, so the removal callback returns an `Option` (`none` = a
`NotFoundError` escaped the timer callback). -/

inductive ToastTimer where
  | enterRaf (fireAt : Nat)
  | exitTimer (fireAt : Nat)
  | removeTimer (fireAt : Nat)
deriving DecidableEq, Repr

def ToastTimer.fireAt : ToastTimer → Nat
  | ToastTimer.enterRaf t => t
  | ToastTimer.exitTimer t => t
  | ToastTimer.removeTimer t => t

structure ToastSys where
  attached : Bool
  offscreen : Bool
  pending : List ToastTimer
  log : List (Nat × String)
deriving DecidableEq, Repr

/-- `document.body.removeChild(node)`: removes the node, or throws when
it is not attached. -/
def removeChildStrict (s : ToastSys) : Option ToastSys :=
  if s.attached then some { s with attached := false } else none

/-- The controller's delayed-removal callback: `if (notification.parentNode)
document.body.removeChild(notification)` — the removal is guarded. -/
def ctrlRemoveCallback (now : Nat) (s : ToastSys) : Option ToastSys :=
  if s.attached then
    (removeChildStrict s).map (fun s1 =>
      { s1 with log := s1.log ++ [(now, "removed")] })
  else some s

/-- The flat variant (`showCopyNotification`) removes without a guard. -/
def flatRemoveCallback (now : Nat) (s : ToastSys) : Option ToastSys :=
  (removeChildStrict s).map (fun s1 =>
    { s1 with log := s1.log ++ [(now, "removed")] })

/-- Fire one timer of the controller toast at its scheduled time:
the entrance frame moves the node on-screen; the 3000 ms timer starts
the exit transform and schedules removal 300 ms later; the removal
callback is `ctrlRemoveCallback`. -/
def fireToastTimer (t : ToastTimer) (s : ToastSys) : Option ToastSys :=
  match t with
  | ToastTimer.enterRaf now =>
      some { s with offscreen := false, log := s.log ++ [(now, "enter")] }
  | ToastTimer.exitTimer now =>
      some { s with offscreen := true,
                    pending := s.pending ++ [ToastTimer.removeTimer (now + 300)],
                    log := s.log ++ [(now, "exitStart")] }
  | ToastTimer.removeTimer now => ctrlRemoveCallback now s

/-- Run the earliest pending timer (the pending list is kept in firing
order; at most one timer is ever pending here). -/
def toastStep (s : ToastSys) : Option ToastSys :=
  match s.pending with
  | [] => some s
  | t :: rest => fireToastTimer t { s with pending := rest }

/-- Controller `showNotification` called at time `t0`: node appended
off-screen, entrance frame requested, exit timer set for `t0 + 3000`. -/
def showNotification_ctrl (t0 : Nat) : ToastSys :=
  { attached := true, offscreen := true,
    pending := [ToastTimer.enterRaf t0, ToastTimer.exitTimer (t0 + 3000)],
    log := [(t0, "append")] }

/-- C6 — under deterministic timers a toast shown at `t0` is appended at
`t0`, starts its exit at `t0 + 3000`, and is removed at `t0 + 3300`;
running all timers ends with the node detached and nothing pending. -/
theorem toast_lifecycle (t0 : Nat) :
    (((toastStep (showNotification_ctrl t0)).bind toastStep).bind toastStep) =
      some { attached := false, offscreen := true, pending := [],
             log := [(t0, "append"), (t0, "enter"), (t0 + 3000, "exitStart"),
                     (t0 + 3300, "removed")] } := by
  simp [showNotification_ctrl, toastStep, fireToastTimer, ctrlRemoveCallback,
    removeChildStrict, Nat.add_assoc]

/-- C10 — the controller's removal callback checks `parentNode` first,
so it never throws: it returns a state (never `none`), even when the
node was already detached before the timer fired. -/
theorem ctrlRemoveCallback_total (now : Nat) (s : ToastSys) :
    (ctrlRemoveCallback now s).isSome = true := by
  by_cases h : s.attached <;>
    simp [ctrlRemoveCallback, removeChildStrict, h]

/-! ## Throttle (`throttle(func, limit)` of the controller variant)

The closure's `inThrottle` flag is set on execution and cleared by a
timer `limit` ms later; we model it as the absolute time at which the
open window ends.  A call at time `t` sees `inThrottle` true iff a
window is open and `t` is before its end. -/

structure ThrottleState where
  windowEnd : Option Nat
deriving DecidableEq, Repr

/-- One arrival of the throttled function at time `t`: if `inThrottle`
is false the wrapped function runs synchronously (result flag `true`)
and a window `[t, t + limit)` opens; otherwise the call is discarded
(flag `false`, state unchanged — nothing is deferred). -/
def throttleCall (limit t : Nat) (s : ThrottleState) : ThrottleState × Bool :=
  let inThrottle :=
    match s.windowEnd with
    | none => false
    | some e => decide (t < e)
  if inThrottle then (s, false)
  else ({ windowEnd := some (t + limit) }, true)

/-- C9 — leading edge: a call at `t` with no window open executes
synchronously and opens a window ending at `t + limit`; any call at
`t' ∈ [t, t + limit)` is discarded entirely — it does not execute and
leaves the state exactly as it was (no deferred execution exists). -/
theorem throttle_leading_edge (limit t tNext : Nat) (s : ThrottleState)
    (hfree : ∀ e, s.windowEnd = some e → e ≤ t)
    (h1 : t ≤ tNext) (h2 : tNext < t + limit) :
    (throttleCall limit t s).2 = true ∧
    (throttleCall limit t s).1.windowEnd = some (t + limit) ∧
    (throttleCall limit tNext (throttleCall limit t s).1).2 = false ∧
    (throttleCall limit tNext (throttleCall limit t s).1).1 =
      (throttleCall limit t s).1 := by
  have hin : (match s.windowEnd with
      | none => false
      | some e => decide (t < e)) = false := by
    cases hw : s.windowEnd with
    | none => rfl
    | some e => simpa using Nat.not_lt.mpr (hfree e hw)
  refine ⟨?_, ?_, ?_, ?_⟩ <;> simp [throttleCall, hin, h2]

/-- Witness for C9: interval 16 ms, execution at 0, arrival at 5. -/
theorem throttle_leading_edge_witness :
    (throttleCall 16 0 ⟨none⟩).2 = true ∧
    (throttleCall 16 5 (throttleCall 16 0 ⟨none⟩).1).2 = false := by
  have h := throttle_leading_edge 16 0 5 ⟨none⟩
    (fun e he => by simp at he) (by norm_num) (by norm_num)
  exact ⟨h.1, h.2.2.1⟩
